import Mathlib

/-
Verification development for the NewsBud editorial-brief pipeline
(src/bot.py). The Python source is shallowly embedded below: pure
functions become Lean functions; the external rasterizer
(`page.get_pixmap`), the two AI inference calls and the per-user session
store (`context.user_data`) are black boxes modelled as explicit
parameters (an oracle telling which pages the rasterizer fails on, the
raw model response text or `none` for a transport error, and an
`Option Document` session value). User-visible effects of the handlers
are recorded as an explicit event trace.
-/

namespace NewsBud

deriving instance DecidableEq for Except

/-- Rendering quality tier: `low` for detection thumbnails (dpi=72,
bot.py line 47), `high` for analysis renders (dpi=300, line 63). -/
inductive Tier where
  | low
  | high
deriving DecidableEq

/-- A document: an opaque identity plus its page count (`doc.page_count`
in PyMuPDF). Pages themselves are opaque; a rendered page is identified
by document id, 1-based page number and tier. -/
structure Document where
  id : Nat
  page_count : Nat
deriving DecidableEq

/-- A rendered page image (`Image.open(io.BytesIO(img_data))` in the
source): which document, which 1-based page, at which tier. -/
structure Image where
  doc : Nat
  page : Int
  tier : Tier
deriving DecidableEq

/-! ## Classifier response parsing (bot.py lines 70-93) -/

/-- Python `str.strip()` whitespace predicate on the ASCII whitespace
characters (space, tab, LF, CR, VT, FF). -/
def isPySpace (c : Char) : Bool :=
  c == ' ' || c == '\t' || c == '\n' || c == '\r' || c == '\u000b' || c == '\u000c'

/-- Python `str.strip()`: drop leading and trailing whitespace. -/
def pyStrip (cs : List Char) : List Char :=
  ((cs.dropWhile isPySpace).reverse.dropWhile isPySpace).reverse

/-- Python `str.startswith(pat)`. -/
def startsWithChars : List Char → List Char → Bool
  | _, [] => true
  | [], _ :: _ => false
  | c :: cs, p :: ps => c == p && startsWithChars cs ps

/-- Python slice `s[a:-b]` (used as `text[7:-3]` and `text[3:-3]` in
bot.py lines 86 and 88). -/
def pySliceChars (cs : List Char) (a b : Nat) : List Char :=
  (cs.take (cs.length - b)).drop a

def fenceJsonChars : List Char := "```json".data

def fenceChars : List Char := "```".data

/-- The code-fence cleanup of bot.py lines 83-88: strip whitespace, then
remove a leading "```json" or "```" fence together with the trailing
"```". -/
def clean_response (raw : List Char) : List Char :=
  let text := pyStrip raw
  if startsWithChars text fenceJsonChars then pySliceChars text 7 3
  else if startsWithChars text fenceChars then pySliceChars text 3 3
  else text

/-- JSON token whitespace (what `json.loads` skips between tokens). -/
def skipWs : List Char → List Char
  | [] => []
  | c :: cs => if c == ' ' || c == '\t' || c == '\n' || c == '\r' then skipWs cs else c :: cs

/-- Longest leading run of ASCII digits, and the rest. -/
def takeDigits : List Char → List Char × List Char
  | [] => ([], [])
  | c :: cs =>
    if c.isDigit then
      let r := takeDigits cs
      (c :: r.1, r.2)
    else ([], c :: cs)

def digitsToNat (ds : List Char) : Nat :=
  ds.foldl (fun a c => 10 * a + (c.toNat - 48)) 0

/-- One JSON integer literal: optional minus sign, digits, no leading
zero (per RFC 8259, as enforced by `json.loads`). -/
def parseJsonInt (cs : List Char) : Option (Int × List Char) :=
  let p : Bool × List Char :=
    match cs with
    | c :: r => if c == '-' then (true, r) else (false, cs)
    | [] => (false, [])
  match takeDigits p.2 with
  | ([], _) => none
  | (d :: ds, rest) =>
    if d == '0' && !ds.isEmpty then none
    else
      let n : Int := Int.ofNat (digitsToNat (d :: ds))
      some (if p.1 then -n else n, rest)

/-- Comma-separated JSON integers up to the closing bracket. Fuel-driven
recursion; each step consumes at least one character, so any fuel above
the input length is enough. -/
def parseItems : Nat → List Char → Option (List Int × List Char)
  | 0, _ => none
  | Nat.succ fuel, cs =>
    match parseJsonInt (skipWs cs) with
    | none => none
    | some nr =>
      match skipWs nr.2 with
      | ']' :: r => some ([nr.1], r)
      | ',' :: r =>
        match parseItems fuel r with
        | some nsr => some (nr.1 :: nsr.1, nsr.2)
        | none => none
      | _ => none

/-- `json.loads` restricted to the JSON fragment the Classifier contract
uses (a single array of integers, surrounded by whitespace); any other
document is a parse failure (`none`). -/
def json_loads_int_array (cs : List Char) : Option (List Int) :=
  match skipWs cs with
  | '[' :: r =>
    match skipWs r with
    | ']' :: r2 => if (skipWs r2).isEmpty then some [] else none
    | r2 =>
      match parseItems (r2.length + 1) r2 with
      | some nsr => if (skipWs nsr.2).isEmpty then some nsr.1 else none
      | none => none
  | _ => none

/-- Shallow embedding of `detect_editorial_pages` (bot.py lines 70-93).
The thumbnail images only feed the inference call, whose raw text reply
is the oracle input here; `none` models a transport error or any other
exception raised before `response.text` is read. The `try`/`except` of
lines 81-93 returns `[]` on every failure. -/
def detect_editorial_pages (response : Option String) : List Int :=
  match response with
  | none => []
  | some raw =>
    match json_loads_int_array (clean_response raw.data) with
    | some l => l
    | none => []

/-- The inputs on which the Classifier's parsing step fails: a transport
error, or a raw text whose cleaned form is not a JSON integer array. -/
def classifierParseFails (response : Option String) : Prop :=
  response = none ∨
    ∃ raw, response = some raw ∧ json_loads_int_array (clean_response raw.data) = none

/-! ## Renderers (bot.py lines 39-68) -/

/-- The rasterizer that never fails (the normal behaviour of
`page.get_pixmap`). -/
def noFail : Int → Bool := fun _ => false

/-- The loop of `render_thumbnails` (bot.py lines 45-49): rasterize each
listed page in order; `failAt p = true` models `page.get_pixmap` raising
on page `p`, which aborts the loop with the exception propagating. -/
def thumbsLoop (failAt : Int → Bool) (d : Document) : List Int → Except Unit (List Image)
  | [] => Except.ok []
  | p :: ps =>
    if failAt p then Except.error ()
    else
      match thumbsLoop failAt d ps with
      | Except.ok imgs => Except.ok ({ doc := d.id, page := p, tier := Tier.low } :: imgs)
      | Except.error e => Except.error e

/-- Shallow embedding of `render_thumbnails` (bot.py lines 39-52). The
returned Bool records whether `doc.close()` (line 51) executed on this
exit path: the source has no try/finally, so the close call runs only
when the loop finishes without an exception. -/
def render_thumbnails (failAt : Int → Bool) (d : Document) (max_pages : Nat) :
    Except Unit (List Image) × Bool :=
  let num_pages := min d.page_count max_pages
  match thumbsLoop failAt d ((List.range num_pages).map fun (i : Nat) => ((i : Int) + 1)) with
  | Except.ok imgs => (Except.ok imgs, true)
  | Except.error e => (Except.error e, false)

/-- The loop of `render_high_res` (bot.py lines 59-65): for each
requested 1-based page number, render it only if
`1 <= page_num <= doc.page_count` (line 61), silently skipping the rest;
a rasterizer exception aborts the loop. -/
def highResLoop (failAt : Int → Bool) (d : Document) : List Int → Except Unit (List Image)
  | [] => Except.ok []
  | p :: ps =>
    if 1 ≤ p ∧ p ≤ (d.page_count : Int) then
      if failAt p then Except.error ()
      else
        match highResLoop failAt d ps with
        | Except.ok imgs => Except.ok ({ doc := d.id, page := p, tier := Tier.high } :: imgs)
        | Except.error e => Except.error e
    else highResLoop failAt d ps

/-- Shallow embedding of `render_high_res` (bot.py lines 54-68). As in
`render_thumbnails`, the Bool records whether `doc.close()` (line 67)
executed: no try/finally, so only on normal loop completion. -/
def render_high_res (failAt : Int → Bool) (d : Document) (page_numbers : List Int) :
    Except Unit (List Image) × Bool :=
  match highResLoop failAt d page_numbers with
  | Except.ok imgs => (Except.ok imgs, true)
  | Except.error e => (Except.error e, false)

/-! ## Analyzer (bot.py lines 95-118) -/

def apologyMsg : String := "Error analyzing the pages. Please try again."

/-- Shallow embedding of `analyze_pages` (bot.py lines 95-118): one
inference call on the supplied images; `response = none` models any
exception from the call, caught at lines 116-118 and turned into the
apologetic message, otherwise the reply text is returned as is. -/
def analyze_pages (_imgs : List Image) (response : Option String) : String :=
  match response with
  | none => apologyMsg
  | some s => s

/-! ## Orchestrator (bot.py lines 125-216)

The two handlers are embedded as pure functions from their oracle inputs
(document, raw classifier reply, raw analyzer reply, current per-user
session value) to a trace of user-visible / resource events plus the new
session value. `context.user_data` holds at most the single key
`last_pdf_path` per user, modelled as `Option Document`. Interpolated
values inside status strings (the detected page list, the argument list)
are elided; the strings the claims inspect are kept verbatim. -/

inductive Event where
  | statusMsg (s : String)
  | renderLowRes (pages : List Int)
  | classifierCall
  | instructionMsg (s : String)
  | persistCopy
  | setSession
  | tempCleanup
  | renderHighRes (pages : List Int)
  | analyzerCall (imgs : List Image)
  | emitBrief (s : String)
  | errorMsg
  | usageMsg
  | missingSessionMsg
  | formatErrorMsg
  | removeSession
  | unhandledExc
deriving DecidableEq

def isRenderHighRes : Event → Bool
  | Event.renderHighRes _ => true
  | _ => false

def isAnalyzerCall : Event → Bool
  | Event.analyzerCall _ => true
  | _ => false

def processingMsg : String := "Processing PDF... generating thumbnails."

def scanningMsg : String := "Scanning for editorial pages (sending to Gemini)..."

def instructionText : String :=
  "Could not automatically locate editorials. Please reply with the page numbers manually using the /pages command.\nExample: `/pages 6 7`"

def pagesToken : String := "/pages"

def foundMsg : String := "Found editorials on pages. Analyzing..."

def analyzingMsg : String := "Analyzing pages..."

def briefHeaderMsg : String := "Here is your Decision-Maker's Brief:"

/-- Python substring test (`tok in s`). -/
def containsSub (hay needle : List Char) : Bool :=
  match hay with
  | [] => needle.isEmpty
  | _ :: t => startsWithChars hay needle || containsSub t needle

/-- Shallow embedding of `handle_document` (bot.py lines 125-186), for
an upload that passed the PDF content-type filter and downloaded
successfully. Event order mirrors source order: initial status (130),
thumbnail render (145), scanning status (148), classifier call (150);
then either the fallback branch (153-168: instruction message, durable
copy into the persist dir, `user_data['last_pdf_path']` assignment,
then `return` leaving the `TemporaryDirectory` block which tears the
temp dir down) or the analysis branch (170-182: found status, high-res
render, analyzer call, brief, then block exit). A rasterizer exception
leaves the `with` block (cleanup) and is caught at 184-186 (error
message); the session value is untouched on those paths. -/
def handle_document (failAt : Int → Bool) (d : Document)
    (classifier_response analyzer_response : Option String)
    (sess : Option Document) : List Event × Option Document :=
  let t0 := [Event.statusMsg processingMsg]
  match render_thumbnails failAt d 12 with
  | (Except.error _, _) => (t0 ++ [Event.tempCleanup, Event.errorMsg], sess)
  | (Except.ok thumbs, _) =>
    let t1 := t0 ++ [Event.renderLowRes (thumbs.map Image.page),
                     Event.statusMsg scanningMsg, Event.classifierCall]
    let detected := detect_editorial_pages classifier_response
    if detected.isEmpty then
      (t1 ++ [Event.instructionMsg instructionText, Event.persistCopy,
              Event.setSession, Event.tempCleanup], some d)
    else
      match render_high_res failAt d detected with
      | (Except.error _, _) =>
        (t1 ++ [Event.statusMsg foundMsg, Event.tempCleanup, Event.errorMsg], sess)
      | (Except.ok imgs, _) =>
        (t1 ++ [Event.statusMsg foundMsg, Event.renderHighRes detected,
                Event.analyzerCall imgs,
                Event.emitBrief (analyze_pages imgs analyzer_response),
                Event.tempCleanup], sess)

/-- Python `int(s)` on a whitespace-split command argument: optional
sign followed by one or more digits (underscore/unicode forms of the
literal are not modelled); anything else raises ValueError (`none`). -/
def pyInt? (s : String) : Option Int :=
  match s.data with
  | [] => none
  | cs =>
    let p : Bool × List Char :=
      match cs with
      | '-' :: r => (true, r)
      | '+' :: r => (false, r)
      | _ => (false, cs)
    if !p.2.isEmpty && p.2.all Char.isDigit then
      let n : Int := Int.ofNat (digitsToNat p.2)
      some (if p.1 then -n else n)
    else none

/-- The list comprehension `[int(arg) for arg in context.args]` (bot.py
line 199): the first ValueError aborts the whole command's `try` body. -/
def pyIntList : List String → Option (List Int)
  | [] => some []
  | a :: as =>
    match pyInt? a, pyIntList as with
    | some n, some ns => some (n :: ns)
    | _, _ => none

/-- Shallow embedding of `pages_command` (bot.py lines 188-216), in
source order: empty argument list → usage message and return (189-191);
`context.user_data.get('last_pdf_path')` missing (or file gone) →
missing-session message and return (193-196); integer conversion of the
arguments (199), a ValueError landing in the handler at 215-216 (format
error, nothing else happened); otherwise status (200), high-res render
(202), analyzer (203), brief (205-206), then cleanup (209-213):
`os.remove` of the stored file and removal of the `user_data` key. A
rasterizer exception is not a ValueError and escapes the handler. -/
def pages_command (failAt : Int → Bool) (args : List String)
    (analyzer_response : Option String) (sess : Option Document) :
    List Event × Option Document :=
  if args.isEmpty then ([Event.usageMsg], sess)
  else
    match sess with
    | none => ([Event.missingSessionMsg], sess)
    | some d =>
      match pyIntList args with
      | none => ([Event.formatErrorMsg], sess)
      | some pages =>
        match render_high_res failAt d pages with
        | (Except.error _, _) => ([Event.statusMsg analyzingMsg, Event.unhandledExc], sess)
        | (Except.ok imgs, _) =>
          ([Event.statusMsg analyzingMsg, Event.renderHighRes pages,
            Event.analyzerCall imgs,
            Event.emitBrief (analyze_pages imgs analyzer_response),
            Event.removeSession], none)

/-! ## Concrete inputs used by the claim theorems -/

def exFence : String := "```json\n[6, 7]\n```"

def exEmptyArr : String := "[]"

def exTrunc : String := "[6, 7"

def argX : String := "x"

def argTwo : String := "2"

def argNine : String := "9"

def docA : Document := { id := 1, page_count := 3 }

def docB : Document := { id := 2, page_count := 10 }

/-! ## Helper lemmas -/

/-- The first `min page_count 12` 1-based page numbers, the selection
`render_thumbnails` iterates over. -/
def lowPages (d : Document) : List Int :=
  (List.range (min d.page_count 12)).map fun (i : Nat) => ((i : Int) + 1)

lemma thumbsLoop_noFail (d : Document) (l : List Int) :
    thumbsLoop noFail d l
      = Except.ok (l.map fun p => { doc := d.id, page := p, tier := Tier.low }) := by
  induction l with
  | nil => rfl
  | cons p ps ih => simp [thumbsLoop, noFail, ih]

lemma render_thumbnails_noFail (d : Document) (n : Nat) :
    render_thumbnails noFail d n
      = (Except.ok (((List.range (min d.page_count n)).map fun (i : Nat) => ((i : Int) + 1)).map
          fun p => { doc := d.id, page := p, tier := Tier.low }), true) := by
  simp [render_thumbnails, thumbsLoop_noFail]

lemma highResLoop_noFail (d : Document) (l : List Int) :
    highResLoop noFail d l
      = Except.ok ((l.filter fun p => decide (1 ≤ p ∧ p ≤ (d.page_count : Int))).map
          fun p => { doc := d.id, page := p, tier := Tier.high }) := by
  induction l with
  | nil => rfl
  | cons p ps ih =>
    by_cases h : 1 ≤ p ∧ p ≤ (d.page_count : Int)
    · simp [highResLoop, noFail, h, ih, List.filter_cons]
    · simp [highResLoop, noFail, h, ih, List.filter_cons]

lemma render_high_res_noFail (d : Document) (l : List Int) :
    render_high_res noFail d l
      = (Except.ok ((l.filter fun p => decide (1 ≤ p ∧ p ≤ (d.page_count : Int))).map
          fun p => { doc := d.id, page := p, tier := Tier.high }), true) := by
  simp [render_high_res, highResLoop_noFail]

lemma handle_document_empty (d : Document) (resp aresp : Option String)
    (sess : Option Document) (h : detect_editorial_pages resp = []) :
    handle_document noFail d resp aresp sess
      = ([Event.statusMsg processingMsg,
          Event.renderLowRes (lowPages d),
          Event.statusMsg scanningMsg, Event.classifierCall,
          Event.instructionMsg instructionText, Event.persistCopy,
          Event.setSession, Event.tempCleanup], some d) := by
  simp [handle_document, render_thumbnails_noFail, h, lowPages, List.map_map, Function.comp]

lemma handle_document_nonempty (d : Document) (resp aresp : Option String)
    (sess : Option Document) (h : detect_editorial_pages resp ≠ []) :
    handle_document noFail d resp aresp sess
      = ([Event.statusMsg processingMsg,
          Event.renderLowRes (lowPages d),
          Event.statusMsg scanningMsg, Event.classifierCall,
          Event.statusMsg foundMsg,
          Event.renderHighRes (detect_editorial_pages resp),
          Event.analyzerCall (((detect_editorial_pages resp).filter
              fun p => decide (1 ≤ p ∧ p ≤ (d.page_count : Int))).map
              fun p => { doc := d.id, page := p, tier := Tier.high }),
          Event.emitBrief (analyze_pages (((detect_editorial_pages resp).filter
              fun p => decide (1 ≤ p ∧ p ≤ (d.page_count : Int))).map
              fun p => { doc := d.id, page := p, tier := Tier.high }) aresp),
          Event.tempCleanup], sess) := by
  have h' : (detect_editorial_pages resp).isEmpty = false := by
    cases hd : detect_editorial_pages resp with
    | nil => exact absurd hd h
    | cons a l => rfl
  simp [handle_document, render_thumbnails_noFail, h', render_high_res_noFail,
    lowPages, List.map_map, Function.comp]

/-! ## Claim theorems -/

/-- C2: the Classifier's raw reply is stripped of surrounding code-fence
decoration before JSON parsing, so the fenced reply parses to `[6, 7]`
and a bare `[]` parses to the empty list; and on every input whose
parsing fails (transport error or malformed text) the Classifier
returns the empty result instead of propagating the failure. -/
theorem C2_classifier_fence_strip_and_failure_policy :
    detect_editorial_pages (some exFence) = [6, 7]
    ∧ detect_editorial_pages (some exEmptyArr) = []
    ∧ ∀ r, classifierParseFails r → detect_editorial_pages r = [] := by
  refine ⟨by decide, by decide, ?_⟩
  intro r h
  rcases h with h | ⟨raw, rfl, hp⟩
  · subst h; rfl
  · simp [detect_editorial_pages, hp]

/-- Witness for C2 at the truncated reply `"[6, 7"`: it is a parse
failure and the Classifier returns the empty result on it. -/
theorem C2_classifier_fence_strip_and_failure_policy_witness :
    classifierParseFails (some exTrunc)
    ∧ detect_editorial_pages (some exTrunc) = [] :=
  ⟨Or.inr ⟨exTrunc, rfl, by decide⟩,
    C2_classifier_fence_strip_and_failure_policy.2.2 (some exTrunc)
      (Or.inr ⟨exTrunc, rfl, by decide⟩)⟩

/-- C3: high-resolution rendering keeps exactly the requested indices
lying in `1 ≤ i ≤ page_count`, in the order given, silently dropping
the rest, and succeeds (releasing the handle) rather than failing. -/
theorem C3_high_res_drops_out_of_range_preserving_order :
    ∀ (d : Document) (page_numbers : List Int),
      render_high_res noFail d page_numbers
        = (Except.ok ((page_numbers.filter
            fun p => decide (1 ≤ p ∧ p ≤ (d.page_count : Int))).map
            fun p => { doc := d.id, page := p, tier := Tier.high }), true) := by
  intro d page_numbers
  exact render_high_res_noFail d page_numbers

/-- C6 (code bug): the rendering helpers release the document handle on
success, but NOT when the rasterizer raises partway through: on a
3-page document whose rasterizer fails on page 2, both
`render_thumbnails` and `render_high_res` exit with the handle still
open, because `doc.close()` stands after the loop with no try/finally. -/
theorem C6_render_handle_leak_on_exception :
    (render_thumbnails (fun p => p == 2) { id := 0, page_count := 3 } 12).2 = false
    ∧ (render_high_res (fun p => p == 2) { id := 0, page_count := 3 } [1, 2, 3]).2 = false
    ∧ (render_thumbnails noFail { id := 0, page_count := 3 } 12).2 = true
    ∧ (render_high_res noFail { id := 0, page_count := 3 } [1, 2, 3]).2 = true := by
  decide

/-- C8: low-res rendering produces exactly `page_count` images when the
page count is at most the cap of 12, exactly 12 images otherwise, and
in both cases the images are pages 1, 2, ... in order. -/
theorem C8_thumbnails_capped_first_pages :
    ∀ (d : Document),
      ∃ imgs, render_thumbnails noFail d 12 = (Except.ok imgs, true)
        ∧ (d.page_count ≤ 12 → imgs.length = d.page_count)
        ∧ (12 < d.page_count → imgs.length = 12)
        ∧ imgs = (List.range imgs.length).map
            fun (i : Nat) => { doc := d.id, page := ((i : Int) + 1), tier := Tier.low } := by
  intro d
  refine ⟨_, render_thumbnails_noFail d 12, ?_, ?_, ?_⟩
  · intro h
    rw [List.length_map, List.length_map, List.length_range, Nat.min_eq_left h]
  · intro h
    rw [List.length_map, List.length_map, List.length_range,
      Nat.min_eq_right (Nat.le_of_lt h)]
  · rw [List.map_map, List.length_map, List.length_range]
    rfl

/-- Witness for C8 at a 13-page document: rendering succeeds and yields
exactly 12 images. -/
theorem C8_thumbnails_capped_first_pages_witness :
    ∃ imgs, render_thumbnails noFail { id := 0, page_count := 13 } 12
        = (Except.ok imgs, true) ∧ imgs.length = 12 := by
  obtain ⟨imgs, h1, _, h3, _⟩ := C8_thumbnails_capped_first_pages { id := 0, page_count := 13 }
  exact ⟨imgs, h1, h3 (by decide)⟩

/-- C9: the Content Analyzer never propagates an inference failure: a
failed call (`none`) yields the user-facing apologetic message, a
successful call returns its text; the embedded operation is total. -/
theorem C9_analyzer_never_propagates :
    ∀ (imgs : List Image),
      analyze_pages imgs none = apologyMsg
      ∧ ∀ s, analyze_pages imgs (some s) = s := by
  intro imgs
  exact ⟨rfl, fun s => rfl⟩

/-- C1: when the Classifier returns a non-empty index set, the upload
pipeline makes exactly one high-res render call, with exactly the
detected indices, invokes the Analyzer exactly once, on exactly the
images that render produced, emits a Brief, and creates no session
entry for the user (the session value is untouched). -/
theorem C1_nonempty_detection_runs_analysis_without_session :
    ∀ (d : Document) (resp aresp : Option String) (sess : Option Document),
      detect_editorial_pages resp ≠ [] →
      (handle_document noFail d resp aresp sess).1.countP isRenderHighRes = 1
      ∧ Event.renderHighRes (detect_editorial_pages resp)
          ∈ (handle_document noFail d resp aresp sess).1
      ∧ (handle_document noFail d resp aresp sess).1.countP isAnalyzerCall = 1
      ∧ (∃ imgs, render_high_res noFail d (detect_editorial_pages resp)
            = (Except.ok imgs, true)
          ∧ Event.analyzerCall imgs ∈ (handle_document noFail d resp aresp sess).1)
      ∧ (∃ s, Event.emitBrief s ∈ (handle_document noFail d resp aresp sess).1)
      ∧ Event.setSession ∉ (handle_document noFail d resp aresp sess).1
      ∧ (handle_document noFail d resp aresp sess).2 = sess := by
  intro d resp aresp sess h
  rw [handle_document_nonempty d resp aresp sess h]
  refine ⟨?_, ?_, ?_, ?_, ?_, ?_, rfl⟩
  · simp [List.countP_cons, isRenderHighRes]
  · simp
  · simp [List.countP_cons, isAnalyzerCall]
  · exact ⟨_, render_high_res_noFail d (detect_editorial_pages resp), by simp⟩
  · exact ⟨analyze_pages (((detect_editorial_pages resp).filter
        fun p => decide (1 ≤ p ∧ p ≤ (d.page_count : Int))).map
        fun p => { doc := d.id, page := p, tier := Tier.high }) aresp, by simp⟩
  · simp

/-- Witness for C1 on a 10-page document with the fenced reply
detecting pages 6 and 7 and no prior session: no session entry exists
afterwards. -/
theorem C1_nonempty_detection_runs_analysis_without_session_witness :
    detect_editorial_pages (some exFence) ≠ []
    ∧ (handle_document noFail docB (some exFence) none none).2 = none :=
  ⟨by decide,
    (C1_nonempty_detection_runs_analysis_without_session docB (some exFence) none none
      (by decide)).2.2.2.2.2.2⟩

/-- C5: when the Classifier returns an empty set, the handler stores the
document for the user, the durable copy is made strictly before the
temporary storage is torn down (the single teardown event sits after the
copy event), an instructional message naming the `/pages` command is
emitted, and no Brief is emitted. -/
theorem C5_empty_detection_copy_then_cleanup :
    ∀ (d : Document) (resp aresp : Option String) (sess : Option Document),
      detect_editorial_pages resp = [] →
      (handle_document noFail d resp aresp sess).2 = some d
      ∧ (handle_document noFail d resp aresp sess).1.count Event.tempCleanup = 1
      ∧ (∃ i j, i < j
          ∧ (handle_document noFail d resp aresp sess).1.get? i = some Event.persistCopy
          ∧ (handle_document noFail d resp aresp sess).1.get? j = some Event.tempCleanup)
      ∧ (∃ m, Event.instructionMsg m ∈ (handle_document noFail d resp aresp sess).1
          ∧ containsSub m.data pagesToken.data = true)
      ∧ ∀ s, Event.emitBrief s ∉ (handle_document noFail d resp aresp sess).1 := by
  intro d resp aresp sess h
  rw [handle_document_empty d resp aresp sess h]
  refine ⟨rfl, ?_, ⟨5, 7, by omega, rfl, rfl⟩, ⟨instructionText, by simp, by decide⟩, ?_⟩
  · simp [List.count_cons]
  · intro s; simp

/-- Witness for C5 on a 3-page document with the bare `"[]"` reply: the
document is stored for the user. -/
theorem C5_empty_detection_copy_then_cleanup_witness :
    detect_editorial_pages (some exEmptyArr) = []
    ∧ (handle_document noFail docA (some exEmptyArr) none none).2 = some docA :=
  ⟨by decide,
    (C5_empty_detection_copy_then_cleanup docA (some exEmptyArr) none none (by decide)).1⟩

/-- C4 counterexample: with a session entry for `docA` live, a second
upload (`docB`) whose detection succeeds does NOT overwrite the entry —
it stays at `docA` — and a subsequent manual-override command analyzes
an image of `docA`, the earlier document. This refutes the claim that
every new upload overwrites any prior entry and that a manual override
after a second upload never acts on the earlier document. -/
theorem C4_every_upload_overwrites_counterexample :
    docA ≠ docB
    ∧ (handle_document noFail docB (some exFence) none (some docA)).2 = some docA
    ∧ Event.analyzerCall [{ doc := docA.id, page := 2, tier := Tier.high }]
        ∈ (pages_command noFail [argTwo] none
            (handle_document noFail docB (some exFence) none (some docA)).2).1 := by
  decide

/-- C4 (amended): an upload whose automatic detection returns the empty
set overwrites any prior session entry with the new document; an upload
whose detection is non-empty leaves the session value unchanged; and a
manual-override command acting on a stored document only ever analyzes
images of that stored document. -/
theorem C4_overwrite_on_empty_detection_only :
    ∀ (dOld dNew : Document) (resp aresp : Option String),
      (detect_editorial_pages resp = [] →
        (handle_document noFail dNew resp aresp (some dOld)).2 = some dNew)
      ∧ (∀ sess, detect_editorial_pages resp ≠ [] →
          (handle_document noFail dNew resp aresp sess).2 = sess)
      ∧ (∀ args aresp2 imgs,
          Event.analyzerCall imgs ∈ (pages_command noFail args aresp2 (some dNew)).1 →
          ∀ img ∈ imgs, img.doc = dNew.id) := by
  intro dOld dNew resp aresp
  refine ⟨?_, ?_, ?_⟩
  · intro h
    rw [handle_document_empty dNew resp aresp (some dOld) h]
  · intro sess h
    rw [handle_document_nonempty dNew resp aresp sess h]
  · intro args aresp2 imgs hmem img himg
    by_cases ha : args.isEmpty
    · simp [pages_command, ha] at hmem
    · cases hp : pyIntList args with
      | none => simp [pages_command, ha, hp] at hmem
      | some pages =>
        rw [pages_command] at hmem
        simp only [ha, Bool.false_eq_true, if_false, hp,
          render_high_res_noFail] at hmem
        simp at hmem
        subst hmem
        obtain ⟨p, hp2, rfl⟩ := List.mem_map.1 himg
        rfl

/-- Witness for C4 (amended): with entry `docA` live, an upload of
`docB` whose detection returns empty overwrites the entry with `docB`. -/
theorem C4_overwrite_on_empty_detection_only_witness :
    detect_editorial_pages (some exEmptyArr) = []
    ∧ (handle_document noFail docB (some exEmptyArr) none (some docA)).2 = some docB :=
  ⟨by decide,
    (C4_overwrite_on_empty_detection_only docA docB (some exEmptyArr) none).1 (by decide)⟩

/-- C7 counterexample: a manual-override command with the non-integer
argument `"x"` and no stored session entry reports the missing-session
message, not a format error — the stored entry is looked up before the
input is validated. This refutes the claim that every command whose
input is not a non-empty list of integers reports a format error. -/
theorem C7_format_error_first_counterexample :
    pyIntList [argX] = none
    ∧ (pages_command noFail [argX] none none).1 = [Event.missingSessionMsg]
    ∧ Event.formatErrorMsg ∉ (pages_command noFail [argX] none none).1 := by
  decide

/-- C7 (amended): for every manual-override command whose input is not a
non-empty list of integers, all state is unchanged and nothing is
rendered, analyzed or removed; an empty argument list yields the usage
message before any session access, a non-empty invalid list yields the
missing-session message when no entry is stored (lookup precedes
validation) and the format error once an entry is stored. -/
theorem C7_invalid_input_changes_no_state :
    ∀ (args : List String) (aresp : Option String) (sess : Option Document),
      (args = [] ∨ pyIntList args = none) →
      (pages_command noFail args aresp sess).2 = sess
      ∧ (∀ ps, Event.renderHighRes ps ∉ (pages_command noFail args aresp sess).1)
      ∧ (∀ imgs, Event.analyzerCall imgs ∉ (pages_command noFail args aresp sess).1)
      ∧ Event.removeSession ∉ (pages_command noFail args aresp sess).1
      ∧ (args = [] → (pages_command noFail args aresp sess).1 = [Event.usageMsg])
      ∧ (args ≠ [] → sess = none →
          (pages_command noFail args aresp sess).1 = [Event.missingSessionMsg])
      ∧ (∀ d2, args ≠ [] → sess = some d2 →
          (pages_command noFail args aresp sess).1 = [Event.formatErrorMsg]) := by
  intro args aresp sess h
  by_cases ha : args = []
  · subst ha
    simp [pages_command]
  · have ha' : args.isEmpty = false := by
      cases args with
      | nil => exact absurd rfl ha
      | cons a as => rfl
    have hp : pyIntList args = none := by
      rcases h with h | h
      · exact absurd h ha
      · exact h
    cases sess with
    | none => simp [pages_command, ha', ha]
    | some d =>
      simp [pages_command, ha', ha, hp]

/-- Witness for C7 (amended) at argument `"x"` with entry `docA` stored:
the session entry survives. -/
theorem C7_invalid_input_changes_no_state_witness :
    ([argX] = [] ∨ pyIntList [argX] = none)
    ∧ (pages_command noFail [argX] none (some docA)).2 = some docA :=
  ⟨Or.inr (by decide),
    (C7_invalid_input_changes_no_state [argX] none (some docA) (Or.inr (by decide))).1⟩

/-- C10: a manual-override command whose arguments are valid integers
that are all outside the stored document's page range still invokes the
Analyzer once, with the empty image sequence, delivers its output as the
Brief, and removes the session entry. -/
theorem C10_all_out_of_range_pages_analyze_empty :
    ∀ (d : Document) (args : List String) (pages : List Int) (aresp : Option String),
      args ≠ [] →
      pyIntList args = some pages →
      (∀ p ∈ pages, p < 1 ∨ (d.page_count : Int) < p) →
      (pages_command noFail args aresp (some d)).1
        = [Event.statusMsg analyzingMsg, Event.renderHighRes pages,
           Event.analyzerCall [], Event.emitBrief (analyze_pages [] aresp),
           Event.removeSession]
      ∧ (pages_command noFail args aresp (some d)).2 = none := by
  intro d args pages aresp ha hp hrange
  have ha' : args.isEmpty = false := by
    cases args with
    | nil => exact absurd rfl ha
    | cons a as => rfl
  have hfilter : pages.filter (fun p => decide (1 ≤ p ∧ p ≤ (d.page_count : Int))) = [] := by
    rw [List.filter_eq_nil_iff]
    intro p hpmem
    rcases hrange p hpmem with hlt | hgt
    · simp
      intro h1
      omega
    · simp
      intro h1
      omega
  constructor
  · rw [pages_command]
    simp only [ha', Bool.false_eq_true, if_false, hp, render_high_res_noFail, hfilter]
    simp
  · rw [pages_command]
    simp only [ha', Bool.false_eq_true, if_false, hp, render_high_res_noFail, hfilter]

/-- Witness for C10: page 9 of the stored 3-page document is out of
range, yet the entry is removed after analysis. -/
theorem C10_all_out_of_range_pages_analyze_empty_witness :
    ([argNine] ≠ [] ∧ pyIntList [argNine] = some [9]
      ∧ ∀ p ∈ ([9] : List Int), p < 1 ∨ ((docA.page_count : Nat) : Int) < p)
    ∧ (pages_command noFail [argNine] none (some docA)).2 = none :=
  ⟨⟨by decide, by decide, by decide⟩,
    (C10_all_out_of_range_pages_analyze_empty docA [argNine] [9] none (by decide)
      (by decide) (by decide)).2⟩

end NewsBud
